import Mathlib

/-!
Verification of the paramiko-ssh-mock simulation engine.

The definitions below are a shallow embedding of the Python sources
`src/paramiko_mock/ssh_mock.py` and `src/paramiko_mock/mocked_env.py`
(plus the historical snapshot `src/ParamikoMock/ssh_mock.py`).  Python
objects are modelled by explicit state passing: device objects live in a
heap (a list of devices indexed by position), the process-wide registry
maps keys to heap indices, and every mutating method returns the updated
state.  `BytesIO` buffers are modelled by their byte content as a
`String`; raised exceptions are modelled by an error type returned
through `Except` or an `Option` error component (mutations performed
before a raise are kept in the returned state, as in Python).
-/

namespace ParamikoSSHMock

/-! ## A model of Python `re.match` on the regex fragment used by the engine

The resolver in `ssh_mock.py` delegates pattern tests to Python's
`re.match(pattern, command)`, which succeeds when the pattern matches at
the start of the string (a match consuming only a prefix succeeds).
We model the fragment of regex syntax exercised by this repository's
fixtures (literal characters, the wildcard `.`, and the postfix
repetition `*`); patterns outside the fragment are conservatively
treated as non-matching. -/

/-- A single-character regex atom: a literal character or the wildcard `.`. -/
inductive RAtom where
  | lit (c : Char)
  | any
deriving DecidableEq, Repr

/-- A regex piece: an atom matched once, or an atom under a postfix `*`. -/
inductive RPiece where
  | once (a : RAtom)
  | star (a : RAtom)
deriving DecidableEq, Repr

/-- Whether an atom matches one character. -/
def atomMatches : RAtom → Char → Bool
  | RAtom.lit c, d => c == d
  | RAtom.any, _ => true

/-- Whether a regex accepts the empty word. -/
def nullable : List RPiece → Bool
  | [] => true
  | RPiece.once _ :: _ => false
  | RPiece.star _ :: ps => nullable ps

/-- The residual regexes after one character: a `once` piece consumes the
character, a `star` piece either consumes it and stays or is skipped. -/
def derivPiece : List RPiece → Char → List (List RPiece)
  | [], _ => []
  | RPiece.once a :: ps, c => if atomMatches a c then [ps] else []
  | RPiece.star a :: ps, c =>
      (if atomMatches a c then [RPiece.star a :: ps] else []) ++ derivPiece ps c

/-- Simultaneous matching of a set of residual regexes against the rest
of the word. -/
def matchesFullAux : List (List RPiece) → List Char → Bool
  | states, [] => states.any nullable
  | states, c :: cs => matchesFullAux (states.flatMap (fun r => derivPiece r c)) cs

/-- Whether a regex (a list of pieces) matches the whole character list. -/
def matchesFull (r : List RPiece) (s : List Char) : Bool :=
  matchesFullAux [r] s

/-- Match-at-start-of-string semantics of Python `re.match`: some prefix
of the input (possibly empty, possibly the whole input) matches the
regex in full. -/
def reMatch (r : List RPiece) (s : List Char) : Bool :=
  (List.range (s.length + 1)).any (fun n => matchesFull r (s.take n))

/-- Parse one atom of the modelled fragment; regex metacharacters outside
the fragment are rejected. -/
def parseAtom (c : Char) : Option RAtom :=
  if c == '.' then some RAtom.any
  else if c ∈ ['*', '(', ')', '[', ']', '+', '?', '^', '$', '|', '\\'] then none
  else some (RAtom.lit c)

/-- Parse a pattern of the modelled fragment into a list of regex pieces. -/
def parseRegexAux : List Char → Option (List RPiece)
  | [] => some []
  | c :: '*' :: rest =>
    match parseAtom c with
    | none => none
    | some a => (parseRegexAux rest).map (fun ps => RPiece.star a :: ps)
  | c :: rest =>
    match parseAtom c with
    | none => none
    | some a => (parseRegexAux rest).map (fun ps => RPiece.once a :: ps)

/-- Parse a pattern string. -/
def parseRegex (s : String) : Option (List RPiece) :=
  parseRegexAux s.data

/-- Full-string match of a pattern string (used to express the prefix
property of `re.match`). -/
def matchesFullStr (pat s : String) : Bool :=
  match parseRegex pat with
  | some r => matchesFull r s.data
  | none => false

/-- Model of Python `re.match pat s` as a Boolean: the pattern matches at
the start of `s`. -/
def reMatchStr (pat s : String) : Bool :=
  match parseRegex pat with
  | some r => reMatch r s.data
  | none => false

/-! ## Streams, responses and errors -/

/-- Modelled from the spec: the connection failure configuration variants
(ConnectionFailureConfig lives in a module that is not part of the source
snapshot; the tests construct DNS, timeout, authentication, refusal and
custom failures through it).  Each variant stands for the exception
object stored on the device. -/
inductive FailureConfig where
  | dnsFailure (hostname : String)
  | timeoutFailure
  | authenticationFailure
  | connectionRefused
  | custom (msg : String)
deriving DecidableEq, Repr

/-- The exceptions the engine can raise, by Python type.  `badSetup` is
BadSetupError (the registry's not-registered error), `authentication` is
paramiko's AuthenticationException, `noValidConnections` is paramiko's
NoValidConnectionsError, `notImplemented` is the NotImplementedError
raised for an unresolvable command, `attributeError` and `typeError` are
the Python runtime errors from dereferencing None or misusing a value,
and `connectionFailure` carries a configured injected failure. -/
inductive PyError where
  | badSetup
  | authentication
  | noValidConnections
  | notImplemented
  | attributeError
  | typeError
  | connectionFailure (f : FailureConfig)
deriving DecidableEq, Repr

/-- Modelled from the spec: the StderrMock of `stderr_mock.py` (the module
is absent from the snapshot; the tests import it), an error stream whose
channel-like accessor reports an exit status. -/
structure StderrMock where
  content : String
  exit_status : Int
deriving DecidableEq, Repr

/-- An error stream as returned to callers: either a bare buffer or one
decorated with an exit-status accessor. -/
inductive ErrStream where
  | plain (content : String)
  | withStatus (m : StderrMock)
deriving DecidableEq, Repr

/-- The channel-like exit-status accessor; per the spec it reports 0 when
the stream is undecorated. -/
def ErrStream.recvExitStatus : ErrStream → Int
  | ErrStream.plain _ => 0
  | ErrStream.withStatus m => m.exit_status

/-- The byte content of the error stream. -/
def ErrStream.read : ErrStream → String
  | ErrStream.plain s => s
  | ErrStream.withStatus m => m.content

/-- The stream triple returned by an executed command: stdin and stdout
buffers (their byte content) and the error stream. -/
abbrev StreamTriple := String × String × ErrStream

/-- Modelled from the spec: the static response variant
(SSHCommandMock with the `exit_status` keyword used by the tests; the
snapshot's SSHCommandMock predates the exit-status support).  Byte
streams are modelled by their content; the exit status defaults to 0. -/
structure StaticResponse where
  stdin : String
  stdout : String
  stderr : String
  exitStatus : Int
deriving DecidableEq, Repr

/-- Invoking a static response: the stored streams are returned; per the
spec the error stream is decorated with the exit-status accessor when the
entry carries a non-default status. -/
def StaticResponse.call (r : StaticResponse) : StreamTriple :=
  if r.exitStatus = 0 then (r.stdin, r.stdout, ErrStream.plain r.stderr)
  else (r.stdin, r.stdout, ErrStream.withStatus ⟨r.stderr, r.exitStatus⟩)

/-- The device data a callback response may inspect through the client it
receives (the test suite's callbacks read the host and the command
history of `ssh_client_mock.device`). -/
structure DeviceInfo where
  host : String
  port : Int
  commandHistory : List String

/-- A response registered for a command: the static variant or a callback
receiving the executing device's data and the command text. -/
inductive SSHResponseMock where
  | static (r : StaticResponse)
  | callback (f : DeviceInfo → String → StreamTriple)

/-- Invoking a response, as `response(self, command)` does in
`exec_command`: static responses ignore the arguments, callbacks receive
the device data and the command. -/
def SSHResponseMock.call (r : SSHResponseMock) (info : DeviceInfo) (cmd : String) :
    StreamTriple :=
  match r with
  | SSHResponseMock.static s => s.call
  | SSHResponseMock.callback f => f info cmd

/-! ## Devices, the registry and the heap

A `MockRemoteDevice` mirrors the attributes set by
`MockRemoteDevice.__init__` in `mocked_env.py`; the `connectionFailure`
field is modelled from the spec (the snapshot's `__init__` does not set
it, while `SSHClientMock.connect` reads it and the tests configure it
through registry helpers absent from the snapshot).  Device objects are
allocated in a heap and referenced by index, so that the registry and any
number of clients can alias the same mutable device, as in Python. -/

structure MockRemoteDevice where
  host : String
  port : Int
  responses : List (String × SSHResponseMock)
  username : Option String
  password : Option String
  connectionFailure : Option FailureConfig
  commandHistory : List String

/-- The authentication check of `MockRemoteDevice.authenticate`: open
access when neither a username nor a password is stored, otherwise exact
tuple equality against the stored pair. -/
def MockRemoteDevice.authenticate (d : MockRemoteDevice)
    (username password : Option String) : Bool :=
  if d.username = none ∧ d.password = none then true
  else decide (d.username = username ∧ d.password = password)

/-- The device data handed to callback responses. -/
def MockRemoteDevice.info (d : MockRemoteDevice) : DeviceInfo :=
  ⟨d.host, d.port, d.commandHistory⟩

/-- The process-wide state: the heap of device objects ever allocated and
the registry's mapping from a host-and-port key to the heap index of the
registered device (the ParamikoMockEnviron singleton). -/
structure World where
  heap : List MockRemoteDevice
  env : List (String × Nat)

/-- Association list lookup (Python `dict.get`). -/
def lookupKey (l : List (String × Nat)) (k : String) : Option Nat :=
  (l.find? (fun p => p.1 == k)).map Prod.snd

/-- Association list update (Python `dict.__setitem__`). -/
def setKey (l : List (String × Nat)) (k : String) (v : Nat) : List (String × Nat) :=
  if l.any (fun p => p.1 == k) then
    l.map (fun p => if p.1 == k then (k, v) else p)
  else l ++ [(k, v)]

/-- The registry key for a host and port, Python `f'{host}:{port}'`. -/
def hostKey (host : String) (port : Int) : String :=
  host ++ ":" ++ toString port

/-- ParamikoMockEnviron._get_remote_device: the registered device, or
BadSetupError when the key is absent. -/
def getRemoteDevice (w : World) (host : String) : Except PyError Nat :=
  match lookupKey w.env host with
  | some r => Except.ok r
  | none => Except.error PyError.badSetup

/-- ParamikoMockEnviron.add_responses_for_host: allocates a fresh device
object and registers it under the host-and-port key (overwriting any
previous registration).  The `connection_failure` parameter is modelled
from the spec, as for the device field. -/
def add_responses_for_host (w : World) (host : String) (port : Int)
    (responses : List (String × SSHResponseMock))
    (username password : Option String)
    (connection_failure : Option FailureConfig) : World :=
  let dev : MockRemoteDevice :=
    { host := host, port := port, responses := responses, username := username,
      password := password, connectionFailure := connection_failure,
      commandHistory := [] }
  { heap := w.heap ++ [dev], env := setKey w.env (hostKey host port) w.heap.length }

/-- ParamikoMockEnviron.cleanup_environment: clears the registry's device
mapping.  Device objects already allocated stay in the heap, as the
Python objects would while still referenced. -/
def cleanup_environment (w : World) : World :=
  { w with env := [] }

/-! ## The client facade -/

/-- The SFTP sub-client built by `open_sftp`.  In Python it stores
references to the selected device's own remote filesystem (each device
object allocates exactly one) and to the shared local filesystem; the
remote filesystem is therefore identified by the heap index of the device
the sub-client was constructed from. -/
structure SFTPClientMock where
  remoteFsOwner : Nat
deriving DecidableEq, Repr

/-- The state of an SSHClientMock instance.  `device` and
`sftpClientMock` are set to None by `__init__`; `selected_host` is not
assigned by `__init__` at all, so it is modelled one level deeper: the
outer `none` means the attribute does not exist (reading it raises
AttributeError), `some v` means it holds the Python value `v`. -/
structure SSHClientMock where
  device : Option Nat
  sftpClientMock : Option SFTPClientMock
  selectedHost : Option (Option String)

/-- A freshly constructed SSHClientMock. -/
def SSHClientMock.init : SSHClientMock :=
  { device := none, sftpClientMock := none, selectedHost := none }

/-- SSHClientMock.close: releases the device reference and nothing else. -/
def SSHClientMock.close (c : SSHClientMock) : SSHClientMock :=
  { c with device := none }

/-- SSHClientMock.connect.  Mirrors the source order: `selected_host` is
assigned first; the registry lookup may raise BadSetupError; then the
device reference is stored; a configured connection failure is raised
before authentication; authentication failure raises
AuthenticationException; on success the device's history is cleared.
The returned state reflects all assignments made before a raise. -/
def connect (w : World) (c : SSHClientMock) (hostname : String) (port : Int)
    (username password : Option String) :
    World × SSHClientMock × Option PyError :=
  let key := hostKey hostname port
  let c₁ := { c with selectedHost := some (some key) }
  match lookupKey w.env key with
  | none => (w, c₁, some PyError.badSetup)
  | some r =>
    let c₂ := { c₁ with device := some r }
    match w.heap[r]? with
    | none => (w, c₂, some PyError.attributeError)
    | some dev =>
      match dev.connectionFailure with
      | some f => (w, c₂, some (PyError.connectionFailure f))
      | none =>
        if dev.authenticate username password then
          let dev' := { dev with commandHistory := [] }
          ({ w with heap := w.heap.set r dev' }, c₂, none)
        else
          (w, c₂, some PyError.authentication)

/-- Python `dict.get` on the response mapping: the entry stored under the
exact key. -/
def dictGet (l : List (String × SSHResponseMock)) (cmd : String) :
    Option SSHResponseMock :=
  (l.find? (fun p => p.1 == cmd)).map Prod.snd

/-- Whether a key has the literal pattern-entry form, as tested by
`command_key.startswith('re(') and command_key.endswith(')')` (expressed
over the character list of the key). -/
def isPatternKey (k : String) : Bool :=
  List.isPrefixOf "re(".data k.data && List.isSuffixOf ")".data k.data

/-- The pattern text of a pattern key, Python `command_key[3:-1]`. -/
def patternOf (k : String) : String :=
  String.mk ((k.data.drop 3).dropLast)

/-- The pattern-fallback scan of `exec_command`: walk the entries in
insertion order and return the value of the first pattern entry whose
pattern matches the command at the start of the string. -/
def findPattern : List (String × SSHResponseMock) → String → Option SSHResponseMock
  | [], _ => none
  | (k, v) :: rest, cmd =>
    if isPatternKey k && reMatchStr (patternOf k) cmd then some v
    else findPattern rest cmd

/-- The response resolver of `exec_command`: the exact-key entry when one
exists, otherwise the pattern-fallback scan. -/
def resolve (l : List (String × SSHResponseMock)) (cmd : String) :
    Option SSHResponseMock :=
  match dictGet l cmd with
  | some r => some r
  | none => findPattern l cmd

/-- SSHClientMock.exec_command.  Reading an unassigned `selected_host`
raises AttributeError; the source's explicit check raises
NoValidConnectionsError only when the attribute holds None (which no
assignment in the source ever stores).  The command is appended to the
device's history before resolution, so the append persists even when
resolution fails; `self.device.add_command_to_history` on a None device
raises AttributeError.  On success the resolved response is invoked with
the client and the command. -/
def exec_command (w : World) (c : SSHClientMock) (cmd : String) :
    World × Except PyError StreamTriple :=
  match c.selectedHost with
  | none => (w, Except.error PyError.attributeError)
  | some none => (w, Except.error PyError.noValidConnections)
  | some (some _) =>
    match c.device with
    | none => (w, Except.error PyError.attributeError)
    | some r =>
      match w.heap[r]? with
      | none => (w, Except.error PyError.attributeError)
      | some dev =>
        let dev' := { dev with commandHistory := dev.commandHistory ++ [cmd] }
        let w' := { w with heap := w.heap.set r dev' }
        match resolve dev'.responses cmd with
        | some resp => (w', Except.ok (resp.call dev'.info cmd))
        | none => (w', Except.error PyError.notImplemented)

/-- SSHClientMock.open_sftp: raises NoValidConnectionsError when the
device reference is None; otherwise builds the SFTP sub-client bound to
the current device's filesystems on the first call and caches it, and
returns the cached instance on every later call. -/
def open_sftp (c : SSHClientMock) : Except PyError (SFTPClientMock × SSHClientMock) :=
  match c.device with
  | none => Except.error PyError.noValidConnections
  | some r =>
    match c.sftpClientMock with
    | some m => Except.ok (m, c)
    | none => Except.ok (⟨r⟩, { c with sftpClientMock := some (SFTPClientMock.mk r) })

/-! ## The static response class of the snapshot, with its dynamic typing

The snapshot's SSHCommandMock stores whatever `__init__` leaves in
`self.stdin` / `self.stdout` / `self.stderr`: a value that is either a
Python `str` or a `BytesIO` buffer.  `__init__` converts string arguments
into `BytesIO` buffers.  `append_to_stdout` evaluates
`self.stdout += new_stdout` with a `str` argument, which raises TypeError
when `self.stdout` is a buffer; `remove_line_containing` calls
`self.stdout.split`, which raises AttributeError on a buffer. -/

/-- A value held in a stream attribute: a Python `str` or a `BytesIO`
buffer, each carrying its character content. -/
inductive StreamVal where
  | str (s : String)
  | buf (s : String)
deriving DecidableEq, Repr

/-- The conversion `__init__` applies to each argument: strings are
encoded into `BytesIO` buffers, buffers are stored as given. -/
def toBuf : StreamVal → StreamVal
  | StreamVal.str s => StreamVal.buf s
  | StreamVal.buf s => StreamVal.buf s

/-- The snapshot's SSHCommandMock: the three stream attributes as left by
`__init__`. -/
structure SSHCommandMock where
  stdin : StreamVal
  stdout : StreamVal
  stderr : StreamVal
deriving DecidableEq, Repr

/-- SSHCommandMock.__init__ of the snapshot: every string argument is
converted to a buffer before being stored. -/
def SSHCommandMock.make (stdin stdout stderr : StreamVal) : SSHCommandMock :=
  ⟨toBuf stdin, toBuf stdout, toBuf stderr⟩

/-- SSHCommandMock.__call__: returns the stored stream objects. -/
def SSHCommandMock.call (m : SSHCommandMock) : StreamVal × StreamVal × StreamVal :=
  (m.stdin, m.stdout, m.stderr)

/-- Whether one character list contains another as a contiguous run. -/
def listContains (x sub : List Char) : Bool :=
  (List.range (x.length + 1)).any (fun i => sub.isPrefixOf (x.drop i))

/-- Whether one string contains another, Python's `sub in x`. -/
def strContains (x sub : String) : Bool :=
  listContains x.data sub.data

/-- Splitting a character list at newline characters, Python
`s.split('\n')`. -/
def splitLines : List Char → List (List Char)
  | [] => [[]]
  | c :: cs =>
    let r := splitLines cs
    if c = '\n' then [] :: r
    else
      match r with
      | [] => [[c]]
      | l :: ls => (c :: l) :: ls

/-- Joining lines with newline characters, Python `'\n'.join(...)`. -/
def joinLines : List (List Char) → List Char
  | [] => []
  | [l] => l
  | l :: ls => l ++ '\n' :: joinLines ls

/-- The line filter used by `remove_line_containing`: keep the lines that
do not contain the given text. -/
def removeLines (s line : String) : String :=
  String.mk (joinLines ((splitLines s.data).filter (fun x => !(listContains x line.data))))

/-- SSHCommandMock.append_to_stdout: `self.stdout += new_stdout` with a
string argument; adding a string to a buffer raises TypeError. -/
def SSHCommandMock.append_to_stdout (m : SSHCommandMock) (new : String) :
    Except PyError SSHCommandMock :=
  match m.stdout with
  | StreamVal.str s => Except.ok { m with stdout := StreamVal.str (s ++ new) }
  | StreamVal.buf _ => Except.error PyError.typeError

/-- SSHCommandMock.remove_line_containing: `self.stdout.split('\n')`
raises AttributeError when `self.stdout` is a buffer. -/
def SSHCommandMock.remove_line_containing (m : SSHCommandMock) (line : String) :
    Except PyError SSHCommandMock :=
  match m.stdout with
  | StreamVal.str s => Except.ok { m with stdout := StreamVal.str (removeLines s line) }
  | StreamVal.buf _ => Except.error PyError.attributeError

end ParamikoSSHMock

/-! ## The historical snapshot `src/ParamikoMock/ssh_mock.py`

Its SSHCommandMock stores the constructor arguments unchanged (strings)
and wraps them into fresh StringIO objects on every call, so the mutation
helpers operate on strings and later calls observe the mutation. -/

namespace LegacyParamikoMock

/-- The legacy SSHCommandMock: the three stream strings as stored by its
`__init__`, which performs no conversion. -/
structure SSHCommandMock where
  stdin : String
  stdout : String
  stderr : String
deriving DecidableEq, Repr

/-- The legacy SSHCommandMock.__call__: fresh StringIO objects over the
currently stored strings (modelled by their content). -/
def SSHCommandMock.call (m : SSHCommandMock) : String × String × String :=
  (m.stdin, m.stdout, m.stderr)

/-- The legacy append_to_stdout: string concatenation onto `self.stdout`. -/
def SSHCommandMock.append_to_stdout (m : SSHCommandMock) (new : String) :
    SSHCommandMock :=
  { m with stdout := m.stdout ++ new }

/-- The legacy remove_line_containing: drops from `self.stdout` every
line containing the given text. -/
def SSHCommandMock.remove_line_containing (m : SSHCommandMock) (line : String) :
    SSHCommandMock :=
  { m with stdout := ParamikoSSHMock.removeLines m.stdout line }

end LegacyParamikoMock

namespace ParamikoSSHMock

/-! ## Sample data used to instantiate the theorems -/

/-- A registered device storing no credentials. -/
def openDevice : MockRemoteDevice :=
  { host := "open_host", port := 22, responses := [], username := none, password := none,
    connectionFailure := none, commandHistory := [] }

/-- A registered device storing credentials and both an exact-key and a
pattern response that can match the same command. -/
def secureDevice : MockRemoteDevice :=
  { host := "secure_host", port := 22,
    responses :=
      [("re(ls.*)", SSHResponseMock.static ⟨"", "pattern output", "", 0⟩),
       ("ls -l", SSHResponseMock.static ⟨"", "exact output", "", 0⟩)],
    username := some "root", password := some "root",
    connectionFailure := none, commandHistory := [] }

/-- A registered device with an injected connection failure. -/
def failingDevice : MockRemoteDevice :=
  { host := "slow_host", port := 22, responses := [], username := some "root",
    password := some "root", connectionFailure := some FailureConfig.timeoutFailure,
    commandHistory := [] }

/-- A world with the three sample devices registered. -/
def sampleWorld : World :=
  { heap := [openDevice, secureDevice, failingDevice],
    env := [("open_host:22", 0), ("secure_host:22", 1), ("slow_host:22", 2)] }

/-! ## Helper lemmas -/

/-- Characterization of `connect` once the registry lookup and the heap
read are known. -/
theorem connect_eq_of_found (w : World) (c : SSHClientMock) (hostname : String)
    (port : Int) (u p : Option String) (r : Nat) (dev : MockRemoteDevice)
    (hreg : lookupKey w.env (hostKey hostname port) = some r)
    (hdev : w.heap[r]? = some dev) :
    connect w c hostname port u p =
      match dev.connectionFailure with
      | some f =>
          (w, { c with selectedHost := some (some (hostKey hostname port)),
                       device := some r },
           some (PyError.connectionFailure f))
      | none =>
          if dev.authenticate u p then
            ({ w with heap := w.heap.set r { dev with commandHistory := [] } },
             { c with selectedHost := some (some (hostKey hostname port)),
                      device := some r }, none)
          else
            (w, { c with selectedHost := some (some (hostKey hostname port)),
                         device := some r },
             some PyError.authentication) := by
  simp only [connect, hreg, hdev]

/-- The Boolean authentication check, as a proposition about the stored
credentials. -/
theorem authenticate_iff (d : MockRemoteDevice) (u p : Option String) :
    d.authenticate u p = true ↔
      ((d.username = none ∧ d.password = none) ∨ (d.username = u ∧ d.password = p)) := by
  unfold MockRemoteDevice.authenticate
  by_cases h : d.username = none ∧ d.password = none <;> simp [h]

/-! ## The claims -/

/-- C1: for every registered device with no connection failure
configured, connect succeeds for any supplied username and password when
the device stores no credentials; when the device stores credentials,
connect succeeds exactly when the supplied pair equals the stored pair,
and any mismatch raises AuthenticationException. -/
theorem connect_authentication (w : World) (c : SSHClientMock)
    (hostname : String) (port : Int) (u p : Option String) (r : Nat)
    (dev : MockRemoteDevice)
    (hreg : lookupKey w.env (hostKey hostname port) = some r)
    (hdev : w.heap[r]? = some dev)
    (hcf : dev.connectionFailure = none) :
    ((dev.username = none ∧ dev.password = none) →
        (connect w c hostname port u p).2.2 = none) ∧
    (¬(dev.username = none ∧ dev.password = none) →
        (((connect w c hostname port u p).2.2 = none) ↔
            (dev.username = u ∧ dev.password = p)) ∧
        (¬(dev.username = u ∧ dev.password = p) →
            (connect w c hostname port u p).2.2 = some PyError.authentication)) := by
  rw [connect_eq_of_found w c hostname port u p r dev hreg hdev, hcf]
  by_cases hauth : dev.authenticate u p = true
  · constructor
    · intro _
      simp [hauth]
    · intro hnc
      have hP : dev.username = u ∧ dev.password = p := by
        rcases (authenticate_iff dev u p).mp hauth with h | h
        · exact absurd h hnc
        · exact h
      refine ⟨⟨fun _ => hP, fun _ => by simp [hauth]⟩, fun hne => absurd hP hne⟩
  · have hfalse : dev.authenticate u p = false := by
      revert hauth; cases dev.authenticate u p <;> simp
    constructor
    · intro hnone
      exact absurd ((authenticate_iff dev u p).mpr (Or.inl hnone)) hauth
    · intro _
      refine ⟨⟨fun h => ?_, fun hP => absurd ((authenticate_iff dev u p).mpr (Or.inr hP)) hauth⟩,
        fun _ => by simp [hfalse]⟩
      simp [hfalse] at h

/-- Witness for C1 at the sample world: the open device accepts arbitrary
credentials, the secured device accepts exactly its stored pair and
rejects a wrong password with AuthenticationException. -/
theorem connect_authentication_witness :
    (connect sampleWorld SSHClientMock.init "open_host" 22 (some "anyone") none).2.2 = none ∧
    (connect sampleWorld SSHClientMock.init "secure_host" 22 (some "root") (some "root")).2.2
      = none ∧
    (connect sampleWorld SSHClientMock.init "secure_host" 22 (some "root") (some "wrong")).2.2
      = some PyError.authentication := by
  refine ⟨?_, ?_, ?_⟩
  · exact (connect_authentication sampleWorld SSHClientMock.init "open_host" 22
      (some "anyone") none 0 openDevice (by decide) rfl rfl).1 ⟨rfl, rfl⟩
  · exact ((connect_authentication sampleWorld SSHClientMock.init "secure_host" 22
      (some "root") (some "root") 1 secureDevice (by decide) rfl rfl).2
        (by decide)).1.mpr ⟨rfl, rfl⟩
  · exact ((connect_authentication sampleWorld SSHClientMock.init "secure_host" 22
      (some "root") (some "wrong") 1 secureDevice (by decide) rfl rfl).2
        (by decide)).2 (by decide)

/-- C2: for every device with a connection failure configured, connect
raises exactly that failure, and the whole outcome is independent of the
supplied credentials, so authentication is never evaluated. -/
theorem connect_failure_injected (w : World) (c : SSHClientMock)
    (hostname : String) (port : Int) (r : Nat) (dev : MockRemoteDevice)
    (f : FailureConfig)
    (hreg : lookupKey w.env (hostKey hostname port) = some r)
    (hdev : w.heap[r]? = some dev)
    (hcf : dev.connectionFailure = some f) :
    (∀ u p, (connect w c hostname port u p).2.2 = some (PyError.connectionFailure f)) ∧
    (∀ u p u' p', connect w c hostname port u p = connect w c hostname port u' p') := by
  constructor
  · intro u p
    rw [connect_eq_of_found w c hostname port u p r dev hreg hdev, hcf]
  · intro u p u' p'
    rw [connect_eq_of_found w c hostname port u p r dev hreg hdev,
        connect_eq_of_found w c hostname port u' p' r dev hreg hdev, hcf]

/-- Witness for C2: connecting to the failing device raises the
configured timeout failure both with its correct credentials and with
wrong ones, and the outcomes agree. -/
theorem connect_failure_injected_witness :
    (connect sampleWorld SSHClientMock.init "slow_host" 22 (some "root") (some "root")).2.2
      = some (PyError.connectionFailure FailureConfig.timeoutFailure) ∧
    connect sampleWorld SSHClientMock.init "slow_host" 22 (some "root") (some "root")
      = connect sampleWorld SSHClientMock.init "slow_host" 22 none (some "bad") := by
  refine ⟨?_, ?_⟩
  · exact (connect_failure_injected sampleWorld SSHClientMock.init "slow_host" 22 2
      failingDevice FailureConfig.timeoutFailure (by decide) rfl rfl).1 (some "root") (some "root")
  · exact (connect_failure_injected sampleWorld SSHClientMock.init "slow_host" 22 2
      failingDevice FailureConfig.timeoutFailure (by decide) rfl rfl).2
      (some "root") (some "root") none (some "bad")

/-- C9: when no device is registered under the host-and-port key, the
registry fetch fails with BadSetupError and so does connect, for any
credentials; the error is returned directly, nothing is retried. -/
theorem connect_not_registered (w : World) (c : SSHClientMock)
    (hostname : String) (port : Int)
    (hmiss : lookupKey w.env (hostKey hostname port) = none) :
    getRemoteDevice w (hostKey hostname port) = Except.error PyError.badSetup ∧
    (∀ u p, (connect w c hostname port u p).2.2 = some PyError.badSetup) := by
  constructor
  · simp only [getRemoteDevice, hmiss]
  · intro u p
    simp only [connect, hmiss]

/-- Witness for C9: fetching and connecting to an unregistered host fails
with BadSetupError. -/
theorem connect_not_registered_witness :
    getRemoteDevice sampleWorld (hostKey "ghost_host" 22) = Except.error PyError.badSetup ∧
    (connect sampleWorld SSHClientMock.init "ghost_host" 22 none none).2.2
      = some PyError.badSetup := by
  refine ⟨?_, ?_⟩
  · exact (connect_not_registered sampleWorld SSHClientMock.init "ghost_host" 22 (by decide)).1
  · exact (connect_not_registered sampleWorld SSHClientMock.init "ghost_host" 22 (by decide)).2
      none none

/-- Characterization of `exec_command` on a connected client: the command
is appended to the device's history and the resolver decides the result. -/
theorem exec_eq_of_connected (w : World) (c : SSHClientMock) (cmd k : String)
    (r : Nat) (dev : MockRemoteDevice)
    (hsel : c.selectedHost = some (some k)) (hdev : c.device = some r)
    (hheap : w.heap[r]? = some dev) :
    exec_command w c cmd =
      ({ w with heap := w.heap.set r { dev with commandHistory := dev.commandHistory ++ [cmd] } },
       match resolve dev.responses cmd with
       | some resp =>
           Except.ok (resp.call ⟨dev.host, dev.port, dev.commandHistory ++ [cmd]⟩ cmd)
       | none => Except.error PyError.notImplemented) := by
  simp only [exec_command, hsel, hdev, hheap]
  cases resolve dev.responses cmd <;> rfl

/-- Spec-side step 2 of the Response Resolver: scan the entries in
insertion order and take the value of the first entry whose key has the
literal form re(<pattern>) and whose pattern matches the command at the
start of the string. -/
def specFirstPattern (l : List (String × SSHResponseMock)) (cmd : String) :
    Option SSHResponseMock :=
  (l.find? (fun q => isPatternKey q.1 && reMatchStr (patternOf q.1) cmd)).map Prod.snd

/-- The source's pattern-fallback scan computes exactly the spec-side
first matching pattern entry. -/
theorem findPattern_eq_spec (l : List (String × SSHResponseMock)) (cmd : String) :
    findPattern l cmd = specFirstPattern l cmd := by
  induction l with
  | nil => rfl
  | cons hd tl ih =>
    obtain ⟨k, v⟩ := hd
    by_cases h : (isPatternKey k && reMatchStr (patternOf k) cmd) = true
    · simp [findPattern, specFirstPattern, List.find?, h]
    · have h' : (isPatternKey k && reMatchStr (patternOf k) cmd) = false := by
        revert h; cases isPatternKey k && reMatchStr (patternOf k) cmd <;> simp
      simp only [findPattern, specFirstPattern, List.find?, h', if_false, Bool.false_eq_true]
      exact ih

/-- A regex that fully matches a word also re.match-matches any extension
of that word: prefix matches succeed. -/
theorem reMatch_of_matchesFull (r : List RPiece) (p q : List Char)
    (h : matchesFull r p = true) : reMatch r (p ++ q) = true := by
  unfold reMatch
  rw [List.any_eq_true]
  refine ⟨p.length, ?_, ?_⟩
  · rw [List.mem_range, List.length_append]
    omega
  · rw [List.take_left]
    exact h

/-- The prefix property of the modelled `re.match`, on pattern strings. -/
theorem reMatchStr_of_matchesFullStr (pat p q : String)
    (h : matchesFullStr pat p = true) : reMatchStr pat (p ++ q) = true := by
  unfold matchesFullStr at h
  unfold reMatchStr
  cases hp : parseRegex pat with
  | none => rw [hp] at h; exact absurd h (by simp)
  | some r =>
    rw [hp] at h
    have hd : (p ++ q).data = p.data ++ q.data := String.data_append p q
    rw [hd]
    exact reMatch_of_matchesFull r p.data q.data h

/-- C3: on a connected client, a command that is an exact key of the
device's response mapping is answered by the entry stored under that
key, even when some pattern entry of the mapping also matches the
command. -/
theorem exec_exact_key_precedence (w : World) (c : SSHClientMock)
    (cmd k : String) (r : Nat) (dev : MockRemoteDevice) (resp : SSHResponseMock)
    (hsel : c.selectedHost = some (some k)) (hdev : c.device = some r)
    (hheap : w.heap[r]? = some dev)
    (hexact : dictGet dev.responses cmd = some resp)
    (_hpat : ∃ pk pv, (pk, pv) ∈ dev.responses ∧ isPatternKey pk = true ∧
        reMatchStr (patternOf pk) cmd = true) :
    (exec_command w c cmd).2 =
      Except.ok (resp.call ⟨dev.host, dev.port, dev.commandHistory ++ [cmd]⟩ cmd) := by
  rw [exec_eq_of_connected w c cmd k r dev hsel hdev hheap]
  simp only [resolve, hexact]

/-- Witness for C3: on the secured device the command `ls -l` is an exact
key while the pattern entry re(ls.*) also matches it; the exact entry's
output is returned. -/
theorem exec_exact_key_precedence_witness :
    (dictGet secureDevice.responses "ls -l"
        = some (SSHResponseMock.static ⟨"", "exact output", "", 0⟩)) ∧
    isPatternKey "re(ls.*)" = true ∧ reMatchStr (patternOf "re(ls.*)") "ls -l" = true ∧
    (exec_command sampleWorld ⟨some 1, none, some (some "secure_host:22")⟩ "ls -l").2 =
      Except.ok (("" : String), ("exact output" : String), ErrStream.plain "") := by
  refine ⟨rfl, by decide, by decide, ?_⟩
  exact exec_exact_key_precedence sampleWorld
    ⟨some 1, none, some (some "secure_host:22")⟩ "ls -l" "secure_host:22" 1 secureDevice
    (SSHResponseMock.static ⟨"", "exact output", "", 0⟩) rfl rfl rfl rfl
    ⟨"re(ls.*)", SSHResponseMock.static ⟨"", "pattern output", "", 0⟩,
      by simp [secureDevice], by decide, by decide⟩

/-- C4: on a connected client, a command that is not an exact key is
resolved by scanning the entries in insertion order, treating exactly the
keys of literal form re(<pattern>) as pattern entries, testing the
enclosed pattern with match-at-start-of-string semantics (a pattern
matching only a prefix of the command succeeds), selecting the first
matching pattern entry, and failing with the unresolved-command error
when no entry matches. -/
theorem exec_pattern_fallback (w : World) (c : SSHClientMock)
    (cmd k : String) (r : Nat) (dev : MockRemoteDevice)
    (hsel : c.selectedHost = some (some k)) (hdev : c.device = some r)
    (hheap : w.heap[r]? = some dev)
    (hmiss : dictGet dev.responses cmd = none) :
    ((exec_command w c cmd).2 =
      match specFirstPattern dev.responses cmd with
      | some resp =>
          Except.ok (resp.call ⟨dev.host, dev.port, dev.commandHistory ++ [cmd]⟩ cmd)
      | none => Except.error PyError.notImplemented) ∧
    (∀ pat p q : String, matchesFullStr pat p = true → reMatchStr pat (p ++ q) = true) := by
  constructor
  · rw [exec_eq_of_connected w c cmd k r dev hsel hdev hheap]
    simp only [resolve, hmiss, findPattern_eq_spec]
  · exact fun pat p q h => reMatchStr_of_matchesFullStr pat p q h

/-- Witness for C4: on the secured device, `ls -al` is not an exact key
and is answered by the first matching pattern entry (whose pattern `ls.*`
fully matches only the prefix `ls` of the command), while `whoami`
matches nothing and fails with the unresolved-command error. -/
theorem exec_pattern_fallback_witness :
    ((exec_command sampleWorld ⟨some 1, none, some (some "secure_host:22")⟩ "ls -al").2 =
      Except.ok (("" : String), ("pattern output" : String), ErrStream.plain "")) ∧
    ((exec_command sampleWorld ⟨some 1, none, some (some "secure_host:22")⟩ "whoami").2 =
      Except.error PyError.notImplemented) ∧
    (matchesFullStr "ls.*" "ls" = true ∧ reMatchStr "ls.*" ("ls" ++ " -al") = true) := by
  refine ⟨?_, ?_, ?_, ?_⟩
  · exact ((exec_pattern_fallback sampleWorld
      ⟨some 1, none, some (some "secure_host:22")⟩ "ls -al" "secure_host:22" 1 secureDevice
      rfl rfl rfl rfl).1).trans (by rfl)
  · exact ((exec_pattern_fallback sampleWorld
      ⟨some 1, none, some (some "secure_host:22")⟩ "whoami" "secure_host:22" 1 secureDevice
      rfl rfl rfl rfl).1).trans (by rfl)
  · decide
  · exact (exec_pattern_fallback sampleWorld
      ⟨some 1, none, some (some "secure_host:22")⟩ "ls -al" "secure_host:22" 1 secureDevice
      rfl rfl rfl rfl).2 "ls.*" "ls" " -al" (by decide)

/-- C5: on a connected client every executed command is appended to the
device's history before resolution (so unresolvable commands are recorded
too); a successful connect leaves the device's history empty; and
registry cleanup leaves no device registered under any key, so no history
is reachable through the registry. -/
theorem command_history_ledger :
    (∀ (w : World) (c : SSHClientMock) (cmd k : String) (r : Nat)
        (dev : MockRemoteDevice),
        c.selectedHost = some (some k) → c.device = some r → w.heap[r]? = some dev →
        (exec_command w c cmd).1.heap[r]? =
          some { dev with commandHistory := dev.commandHistory ++ [cmd] }) ∧
    (∀ (w : World) (c : SSHClientMock) (hostname : String) (port : Int)
        (u p : Option String) (r : Nat) (dev : MockRemoteDevice),
        lookupKey w.env (hostKey hostname port) = some r → w.heap[r]? = some dev →
        dev.connectionFailure = none → dev.authenticate u p = true →
        (connect w c hostname port u p).1.heap[r]? =
          some { dev with commandHistory := [] }) ∧
    (∀ (w : World) (key : String),
        lookupKey (cleanup_environment w).env key = none) := by
  refine ⟨?_, ?_, ?_⟩
  · intro w c cmd k r dev hsel hdev hheap
    obtain ⟨hr, -⟩ := List.getElem?_eq_some.mp hheap
    rw [exec_eq_of_connected w c cmd k r dev hsel hdev hheap]
    cases resolve dev.responses cmd <;>
      exact List.getElem?_set_eq_of_lt _ hr
  · intro w c hostname port u p r dev hreg hheap hcf hauth
    obtain ⟨hr, -⟩ := List.getElem?_eq_some.mp hheap
    rw [connect_eq_of_found w c hostname port u p r dev hreg hheap, hcf]
    simp only [hauth, if_true]
    exact List.getElem?_set_eq_of_lt _ hr
  · intro w key
    simp [cleanup_environment, lookupKey, List.find?]

/-- Witness for C5: on the open device an unresolvable command is still
recorded in the history, a successful connect clears the history, and
after cleanup the open device's key is no longer registered. -/
theorem command_history_ledger_witness :
    ((exec_command sampleWorld ⟨some 0, none, some (some "open_host:22")⟩ "rm -rf /").1.heap[0]?
      = some { openDevice with commandHistory := ["rm -rf /"] }) ∧
    ((connect sampleWorld SSHClientMock.init "open_host" 22 none none).1.heap[0]?
      = some { openDevice with commandHistory := [] }) ∧
    lookupKey (cleanup_environment sampleWorld).env "open_host:22" = none := by
  refine ⟨?_, ?_, ?_⟩
  · exact (command_history_ledger.1 sampleWorld ⟨some 0, none, some (some "open_host:22")⟩
      "rm -rf /" "open_host:22" 0 openDevice rfl rfl rfl).trans (by rfl)
  · exact command_history_ledger.2.1 sampleWorld SSHClientMock.init "open_host" 22
      none none 0 openDevice (by decide) rfl rfl (by decide)
  · exact command_history_ledger.2.2 sampleWorld "open_host:22"

/-- C6 counterexample: after a successful connect followed by close, the
next exec_command fails with the Python AttributeError from dereferencing
the released device, not with the NoValidConnectionsError the claim
names, because the source guards on `selected_host` (still set) rather
than on the device reference. -/
theorem exec_after_close_counterexample :
    ((connect sampleWorld SSHClientMock.init "open_host" 22 none none).2.2 = none) ∧
    ((exec_command (connect sampleWorld SSHClientMock.init "open_host" 22 none none).1
        (SSHClientMock.close
          (connect sampleWorld SSHClientMock.init "open_host" 22 none none).2.1)
        "ls").2 = Except.error PyError.attributeError) ∧
    PyError.attributeError ≠ PyError.noValidConnections := by
  exact ⟨rfl, rfl, by decide⟩

/-- C6 (amended): exec_command guards on `selected_host`, which close
does not reset, so after close() the released device reference makes
every exec_command fail with AttributeError (and open_sftp with
NoValidConnectionsError) rather than silently operating on stale state;
before any connect, exec_command fails with AttributeError because
`selected_host` was never assigned; the source's NoValidConnectionsError
branch fires only in the unreachable state where `selected_host` holds
None. -/
theorem not_connected_failures (w : World) (c : SSHClientMock) (cmd : String) :
    ((SSHClientMock.close c).device = none) ∧
    ((SSHClientMock.close c).selectedHost = c.selectedHost) ∧
    (∀ k, c.selectedHost = some (some k) → c.device = none →
        exec_command w c cmd = (w, Except.error PyError.attributeError)) ∧
    (c.device = none → open_sftp c = Except.error PyError.noValidConnections) ∧
    (c.selectedHost = none → exec_command w c cmd = (w, Except.error PyError.attributeError)) ∧
    (c.selectedHost = some none →
        exec_command w c cmd = (w, Except.error PyError.noValidConnections)) := by
  refine ⟨rfl, rfl, ?_, ?_, ?_, ?_⟩
  · intro k hsel hdev
    simp only [exec_command, hsel, hdev]
  · intro hdev
    simp only [open_sftp, hdev]
  · intro hsel
    simp only [exec_command, hsel]
  · intro hsel
    simp only [exec_command, hsel]

/-- Witness for C6 as amended: a closed client with the selected host
still set fails exec_command with AttributeError and open_sftp with
NoValidConnectionsError, and a fresh client fails exec_command with
AttributeError. -/
theorem not_connected_failures_witness :
    exec_command sampleWorld ⟨none, none, some (some "open_host:22")⟩ "ls"
      = (sampleWorld, Except.error PyError.attributeError) ∧
    open_sftp ⟨none, none, some (some "open_host:22")⟩
      = Except.error PyError.noValidConnections ∧
    exec_command sampleWorld SSHClientMock.init "ls"
      = (sampleWorld, Except.error PyError.attributeError) := by
  refine ⟨?_, ?_, ?_⟩
  · exact (not_connected_failures sampleWorld
      ⟨none, none, some (some "open_host:22")⟩ "ls").2.2.1 "open_host:22" rfl rfl
  · exact (not_connected_failures sampleWorld
      ⟨none, none, some (some "open_host:22")⟩ "ls").2.2.2.1 rfl
  · exact (not_connected_failures sampleWorld SSHClientMock.init "ls").2.2.2.2.1 rfl

/-- C10: once the SFTP sub-client is cached on a client instance, every
later open_sftp on that instance returns the cached sub-client unchanged
whenever a device is selected; close and connect never touch the cache;
and the sub-client built by the first open_sftp is bound to the remote
filesystem of the device selected at that moment. -/
theorem sftp_subclient_sticky (c : SSHClientMock) :
    (∀ m r, c.sftpClientMock = some m → c.device = some r →
        open_sftp c = Except.ok (m, c)) ∧
    ((SSHClientMock.close c).sftpClientMock = c.sftpClientMock) ∧
    (∀ (w : World) (hostname : String) (port : Int) (u p : Option String),
        ((connect w c hostname port u p).2.1).sftpClientMock = c.sftpClientMock) ∧
    (∀ r, c.sftpClientMock = none → c.device = some r →
        open_sftp c = Except.ok (SFTPClientMock.mk r,
          { c with sftpClientMock := some (SFTPClientMock.mk r) })) := by
  refine ⟨?_, rfl, ?_, ?_⟩
  · intro m r hm hr
    simp only [open_sftp, hm, hr]
  · intro w hostname port u p
    cases hl : lookupKey w.env (hostKey hostname port) with
    | none => simp [connect, hl]
    | some r =>
      cases hh : w.heap[r]? with
      | none => simp [connect, hl, hh]
      | some dev =>
        cases hcf : dev.connectionFailure with
        | some f => simp [connect, hl, hh, hcf]
        | none =>
          by_cases h : dev.authenticate u p = true <;>
            simp [connect, hl, hh, hcf, h]
  · intro r hm hr
    simp only [open_sftp, hm, hr]

/-- Witness for C10: a client that cached the sub-client of the first
device (heap index 0) and is now connected to a different device (heap
index 1) still gets back the cached sub-client bound to the first
device's filesystem; close and a successful connect to the second device
keep the cache; the first open_sftp binds the cache to the then-selected
device. -/
theorem sftp_subclient_sticky_witness :
    open_sftp ⟨some 1, some (SFTPClientMock.mk 0), some (some "secure_host:22")⟩
      = Except.ok (SFTPClientMock.mk 0,
          ⟨some 1, some (SFTPClientMock.mk 0), some (some "secure_host:22")⟩) ∧
    (SSHClientMock.close
        ⟨some 0, some (SFTPClientMock.mk 0), some (some "open_host:22")⟩).sftpClientMock
      = some (SFTPClientMock.mk 0) ∧
    ((connect sampleWorld ⟨none, some (SFTPClientMock.mk 0), some (some "open_host:22")⟩
        "secure_host" 22 (some "root") (some "root")).2.1).sftpClientMock
      = some (SFTPClientMock.mk 0) ∧
    open_sftp ⟨some 0, none, some (some "open_host:22")⟩
      = Except.ok (SFTPClientMock.mk 0,
          ⟨some 0, some (SFTPClientMock.mk 0), some (some "open_host:22")⟩) := by
  refine ⟨?_, ?_, ?_, ?_⟩
  · exact (sftp_subclient_sticky
      ⟨some 1, some (SFTPClientMock.mk 0), some (some "secure_host:22")⟩).1
      (SFTPClientMock.mk 0) 1 rfl rfl
  · exact (sftp_subclient_sticky
      ⟨some 0, some (SFTPClientMock.mk 0), some (some "open_host:22")⟩).2.1
  · exact (sftp_subclient_sticky
      ⟨none, some (SFTPClientMock.mk 0), some (some "open_host:22")⟩).2.2.1
      sampleWorld "secure_host" 22 (some "root") (some "root")
  · exact (sftp_subclient_sticky ⟨some 0, none, some (some "open_host:22")⟩).2.2.2
      0 rfl rfl

/-- C7 (evaluation at the failing input): a static response of the
current snapshot built from string streams has had its stdout converted
to a buffer by the constructor, so append_to_stdout fails with TypeError
and remove_line_containing with AttributeError instead of mutating the
stored stdout; the historical snapshot's class keeps the strings and
mutates them as the claim describes. -/
theorem static_response_mutation_bug :
    ((SSHCommandMock.make (StreamVal.str "") (StreamVal.str "hello")
        (StreamVal.str "")).append_to_stdout " world"
      = Except.error PyError.typeError) ∧
    ((SSHCommandMock.make (StreamVal.str "") (StreamVal.str "hello")
        (StreamVal.str "")).remove_line_containing "hell"
      = Except.error PyError.attributeError) ∧
    ((LegacyParamikoMock.SSHCommandMock.mk "" "hello" "").append_to_stdout
        " world").call = ("", "hello world", "") ∧
    (((LegacyParamikoMock.SSHCommandMock.mk "" "keep\nbad line\nalso keep"
        "").remove_line_containing "bad").call = ("", "keep\nalso keep", "")) := by
  exact ⟨rfl, rfl, rfl, by decide⟩

/-- C8: the exit status of a response defaults to 0 when unspecified (the
accessor on an undecorated error stream reports 0), the accessor
retrieves exactly the status a static response carries, a callback
response hands its produced error stream through unchanged, and on a
connected client exec_command returns exactly the resolved response's
invocation, so the accessor applies to every resolved command. -/
theorem exit_status_accessor :
    (∀ i o e : String, (StaticResponse.call ⟨i, o, e, 0⟩).2.2.recvExitStatus = 0) ∧
    (∀ r : StaticResponse, (StaticResponse.call r).2.2.recvExitStatus = r.exitStatus) ∧
    (∀ (f : DeviceInfo → String → StreamTriple) (info : DeviceInfo) (cmd : String),
        ((SSHResponseMock.callback f).call info cmd).2.2.recvExitStatus
          = (f info cmd).2.2.recvExitStatus) ∧
    (∀ (w : World) (c : SSHClientMock) (cmd k : String) (r : Nat)
        (dev : MockRemoteDevice) (resp : SSHResponseMock),
        c.selectedHost = some (some k) → c.device = some r →
        w.heap[r]? = some dev → resolve dev.responses cmd = some resp →
        (exec_command w c cmd).2 =
          Except.ok (resp.call ⟨dev.host, dev.port, dev.commandHistory ++ [cmd]⟩ cmd)) := by
  refine ⟨?_, ?_, ?_, ?_⟩
  · intro i o e
    rfl
  · intro r
    unfold StaticResponse.call
    by_cases h : r.exitStatus = 0
    · simp [h, ErrStream.recvExitStatus]
    · simp [h, ErrStream.recvExitStatus]
  · intro f info cmd
    rfl
  · intro w c cmd k r dev resp hsel hdev hheap hres
    rw [exec_eq_of_connected w c cmd k r dev hsel hdev hheap]
    simp only [hres]

/-- Witness for C8: the accessor reports 0 for a static response without
a specified status, 1 for a static response carrying 1 and for a callback
producing a decorated stream, and the secured device's resolved command
returns its static entry's invocation. -/
theorem exit_status_accessor_witness :
    (StaticResponse.call ⟨"", "output", "error message", 0⟩).2.2.recvExitStatus = 0 ∧
    (StaticResponse.call ⟨"", "output", "error message", 1⟩).2.2.recvExitStatus = 1 ∧
    ((SSHResponseMock.callback (fun _ _ => ("", "custom output",
        ErrStream.withStatus ⟨"Command failed", 1⟩))).call
        ⟨"custom_host", 22, []⟩ "custom_command --fail").2.2.recvExitStatus
      = ((("", "custom output",
          ErrStream.withStatus ⟨"Command failed", 1⟩) : StreamTriple)).2.2.recvExitStatus ∧
    (exec_command sampleWorld ⟨some 1, none, some (some "secure_host:22")⟩ "ls -l").2
      = Except.ok ((SSHResponseMock.static ⟨"", "exact output", "", 0⟩).call
          ⟨"secure_host", 22, ["ls -l"]⟩ "ls -l") := by
  refine ⟨?_, ?_, ?_, ?_⟩
  · exact exit_status_accessor.1 "" "output" "error message"
  · exact (exit_status_accessor.2.1 ⟨"", "output", "error message", 1⟩).trans (by decide)
  · exact exit_status_accessor.2.2.1
      (fun _ _ => ("", "custom output", ErrStream.withStatus ⟨"Command failed", 1⟩))
      ⟨"custom_host", 22, []⟩ "custom_command --fail"
  · exact exit_status_accessor.2.2.2 sampleWorld
      ⟨some 1, none, some (some "secure_host:22")⟩ "ls -l" "secure_host:22" 1 secureDevice
      (SSHResponseMock.static ⟨"", "exact output", "", 0⟩) rfl rfl rfl rfl

end ParamikoSSHMock
